import Mathlib

/-!
Shallow embedding of the `sir-rs` compartmental-model crate
(`src/sirrs/sir.rs` and `src/sirrs/dismod.rs`).

Modelling conventions:
* `f64` values are modelled as exact rationals (`ℚ`); the claims under
  study are about which algebraic update formulas the code computes, not
  about floating-point rounding.
* A `faer::Mat<f64>` column vector is modelled as a `List ℚ`.  Indexing a
  `Mat` out of bounds panics in Rust; reads and writes are therefore
  modelled as `Option`-returning operations, `none` standing for the
  panic.
* `usize` arithmetic: `x.to_usize()` on a nonnegative float truncates
  toward zero (`fTrunc`); `x.ceil().to_usize()` is `fCeil`.
* A Rust `for i in lo..hi` loop whose body can panic is modelled by
  `forLoopM step lo (hi - lo)`: `hi - lo` iterations with the index
  starting at `lo`.
-/

/-- Model of `f64::to_usize()` for a nonnegative value: truncation toward
zero (which is the floor for nonnegative inputs). -/
def fTrunc (q : ℚ) : Nat := (Int.floor q).toNat

/-- Model of `f64::ceil()::to_usize()` for a nonnegative value. -/
def fCeil (q : ℚ) : Nat := (Int.ceil q).toNat

/-- Evaluation helper for `fTrunc` at concrete arguments. -/
theorem fTrunc_eq (q : ℚ) (n : Nat) (h1 : (n : ℚ) ≤ q) (h2 : q < n + 1) :
    fTrunc q = n := by
  have hf : ⌊q⌋ = (n : ℤ) := by
    rw [Int.floor_eq_iff]
    constructor
    · exact_mod_cast h1
    · push_cast
      exact h2
  simp [fTrunc, hf]

/-- Evaluation helper for `fCeil` at concrete arguments. -/
theorem fCeil_eq (q : ℚ) (n : Nat) (h1 : (n : ℚ) - 1 < q) (h2 : q ≤ n) :
    fCeil q = n := by
  have hf : ⌈q⌉ = (n : ℤ) := by
    rw [Int.ceil_eq_iff]
    constructor
    · push_cast
      exact h1
    · exact_mod_cast h2
  simp [fCeil, hf]

/-- Read entry `(i, 0)` of a column matrix.  `faer` panics when the index
is out of bounds; the panic is modelled as `none`. -/
def matRead (xs : List ℚ) (i : Nat) : Option ℚ :=
  if i < xs.length then some (xs.getD i 0) else none

/-- Write entry `(i, 0)` of a column matrix.  `faer` panics when the index
is out of bounds; the panic is modelled as `none`. -/
def matWrite (xs : List ℚ) (i : Nat) (v : ℚ) : Option (List ℚ) :=
  if i < xs.length then some (xs.set i v) else none

/-- Model of Rust `for i in lo..hi { body }` with a fallible body: the
second argument is the remaining iteration count `hi - lo`, the first the
current loop index. -/
def forLoopM {α : Type} (step : α → Nat → Option α) : Nat → Nat → α → Option α
  | _, 0, a => some a
  | i, b + 1, a => (step a i).bind (forLoopM step (i + 1) b)

namespace SIR

/-- Numerical integrator variables for the three-compartment system
(`struct SystemVars` in `sir.rs`). -/
structure SystemVars where
  s : ℚ
  i : ℚ
  r : ℚ
deriving Repr, DecidableEq

/-- The SIR model struct of `sir.rs`. -/
structure Model where
  length : Nat
  step_size : ℚ
  i_popf_init : ℚ
  r_popf_init : ℚ
  incidence_rate : ℚ
  removal_rate : ℚ
  recovery_rate : ℚ
  s_popf : List ℚ
  i_popf : List ℚ
  r_popf : List ℚ
deriving Repr, DecidableEq

/-- `Model::init_popf` of `sir.rs`: allocates the three buffers with
`(length as f64 / step_size).to_usize()` zero rows and writes the initial
fractions at index 0 (a panic if there are zero rows, hence `Option`). -/
def Model.init_popf (m : Model) : Option Model := do
  let n_steps := fTrunc ((m.length : ℚ) / m.step_size)
  let s_init := 1 - m.i_popf_init - m.r_popf_init
  let s0 ← matWrite (List.replicate n_steps 0) 0 s_init
  let i0 ← matWrite (List.replicate n_steps 0) 0 m.i_popf_init
  let r0 ← matWrite (List.replicate n_steps 0) 0 m.r_popf_init
  some { m with s_popf := s0, i_popf := i0, r_popf := r0 }

/-- `Model::dsdt` of `sir.rs`. -/
def Model.dsdt (m : Model) (susceptible infectious : ℚ) : ℚ :=
  (-m.incidence_rate * susceptible * infectious) + (m.recovery_rate * infectious)

/-- `Model::didt` of `sir.rs`. -/
def Model.didt (m : Model) (susceptible infectious : ℚ) : ℚ :=
  (m.incidence_rate * susceptible * infectious)
    - ((m.recovery_rate + m.removal_rate) * infectious)

/-- `Model::drdt` of `sir.rs`. -/
def Model.drdt (m : Model) (infectious : ℚ) : ℚ :=
  m.removal_rate * infectious

/-- Body of the loop in `Model::run_euler` of `sir.rs` at loop index `i`
(the trailing `println!` trace is a side effect outside the state). -/
def Model.eulerStep (m : Model) (i : Nat) : Option Model := do
  let h := m.step_size
  let si ← matRead m.s_popf i
  let ii ← matRead m.i_popf i
  let ri ← matRead m.r_popf i
  let ds := m.dsdt si ii
  let di := m.didt si ii
  let dr := m.drdt ii
  let s2 ← matWrite m.s_popf (i + 1) (si + (h * ds))
  let i2 ← matWrite m.i_popf (i + 1) (ii + (h * di))
  let r2 ← matWrite m.r_popf (i + 1) (ri + (h * dr))
  some { m with s_popf := s2, i_popf := i2, r_popf := r2 }

/-- `Model::run_euler` of `sir.rs`: `for i in 0..n - 1` with
`n = (length as f64 / h).ceil().to_usize()`. -/
def Model.run_euler (m : Model) : Option Model :=
  let n := fCeil ((m.length : ℚ) / m.step_size)
  forLoopM Model.eulerStep 0 (n - 1) m

/-- `Model::next_y` of `sir.rs`. -/
def Model.next_y (_m : Model) (y k h : ℚ) : ℚ := y + (k * h)

/-- `Model::rk4_step` of `sir.rs`, returning `(k[1], k[2], k[3], k[4])`.
The source initializes `y`, `k` as five zeroed `SystemVars` (`init_y`,
`init_k`), sets `y[0]` from the buffers at index `t`, and runs
`for i in 0..4` with the step-size array `init_h()` equal to
`[h/2, h/2, h, h]`; the constant-bound loop is unrolled here.  `k[0]`
stays zero and `y[4]` is written but never read, so neither appears. -/
def Model.rk4_step (m : Model) (t : Nat) :
    Option (SystemVars × SystemVars × SystemVars × SystemVars) := do
  let h0 := m.step_size / 2
  let h1 := m.step_size / 2
  let h2 := m.step_size
  let y0s ← matRead m.s_popf t
  let y0i ← matRead m.i_popf t
  let y0r ← matRead m.r_popf t
  let k1 : SystemVars := ⟨m.dsdt y0s y0i, m.didt y0s y0i, m.drdt y0i⟩
  let y1 : SystemVars :=
    ⟨m.next_y y0s k1.s h0, m.next_y y0i k1.i h0, m.next_y y0r k1.r h0⟩
  let k2 : SystemVars := ⟨m.dsdt y1.s y1.i, m.didt y1.s y1.i, m.drdt y1.i⟩
  let y2 : SystemVars :=
    ⟨m.next_y y0s k2.s h1, m.next_y y0i k2.i h1, m.next_y y0r k2.r h1⟩
  let k3 : SystemVars := ⟨m.dsdt y2.s y2.i, m.didt y2.s y2.i, m.drdt y2.i⟩
  let y3 : SystemVars :=
    ⟨m.next_y y0s k3.s h2, m.next_y y0i k3.i h2, m.next_y y0r k3.r h2⟩
  let k4 : SystemVars := ⟨m.dsdt y3.s y3.i, m.didt y3.s y3.i, m.drdt y3.i⟩
  some (k1, k2, k3, k4)

/-- Body of the loop in `Model::run_rk4` of `sir.rs` at loop index `t`. -/
def Model.rk4Update (m : Model) (t : Nat) : Option Model := do
  let (k1, k2, k3, k4) ← m.rk4_step t
  let ds := (k1.s + (2 * k2.s) + (2 * k3.s) + k4.s) * (m.step_size / 6)
  let di := (k1.i + (2 * k2.i) + (2 * k3.i) + k4.i) * (m.step_size / 6)
  let dr := (k1.r + (2 * k2.r) + (2 * k3.r) + k4.r) * (m.step_size / 6)
  let st ← matRead m.s_popf t
  let it ← matRead m.i_popf t
  let rt ← matRead m.r_popf t
  let s2 ← matWrite m.s_popf (t + 1) (st + ds)
  let i2 ← matWrite m.i_popf (t + 1) (it + di)
  let r2 ← matWrite m.r_popf (t + 1) (rt + dr)
  some { m with s_popf := s2, i_popf := i2, r_popf := r2 }

/-- `Model::run_rk4` of `sir.rs`: `for t in 0..n - 1` with
`n = (length as f64 / step_size).ceil().to_usize()`. -/
def Model.run_rk4 (m : Model) : Option Model :=
  let n := fCeil ((m.length : ℚ) / m.step_size)
  forLoopM Model.rk4Update 0 (n - 1) m

end SIR

namespace Dismod

/-- Numerical integrator variables for the DisMod system
(`struct SystemVars` in `dismod.rs`). -/
structure SystemVars where
  s : ℚ
  c : ℚ
deriving Repr, DecidableEq

/-- The DisMod model struct of `dismod.rs`.  Only the susceptible (`s`)
and with-condition (`c`) fractions are stored. -/
structure Model where
  length : Nat
  step_size : ℚ
  c_init : ℚ
  iota : ℚ
  rho : ℚ
  chi : ℚ
  omega : ℚ
  s : List ℚ
  c : List ℚ
deriving Repr, DecidableEq

/-- `Model::new` of `dismod.rs`: the empty model (empty buffers). -/
def Model.new : Model :=
  { length := 0, step_size := 0, c_init := 0, iota := 0, rho := 0, chi := 0
    omega := 0, s := [], c := [] }

/-- `Model::configure` of `dismod.rs`: stores the parameters and allocates
the `s` and `c` buffers with `(length as f64 / step_size).to_usize()` zero
rows. -/
def Model.configure (m : Model) (length : Nat) (step_size c_init iota rho chi omega : ℚ) :
    Model :=
  let n_steps := fTrunc ((length : ℚ) / step_size)
  { m with
    length := length, step_size := step_size, c_init := c_init, iota := iota
    rho := rho, chi := chi, omega := omega
    s := List.replicate n_steps 0, c := List.replicate n_steps 0 }

/-- `Model::init_popf` of `dismod.rs`: writes the initial fractions at
index 0 of the already-allocated buffers (a panic, modelled as `none`,
when a buffer has no rows). -/
def Model.init_popf (m : Model) : Option Model := do
  let s_init := 1 - m.c_init
  let s0 ← matWrite m.s 0 s_init
  let c0 ← matWrite m.c 0 m.c_init
  some { m with s := s0, c := c0 }

/-- `Model::dsdt` of `dismod.rs`. -/
def Model.dsdt (m : Model) (s c : ℚ) : ℚ :=
  -((m.iota + m.omega) * s) + (m.rho * c)

/-- `Model::dcdt` of `dismod.rs`. -/
def Model.dcdt (m : Model) (s c : ℚ) : ℚ :=
  (m.iota * s) - ((m.rho + m.chi + m.omega) * c)

/-- Modelled from the spec: the current `dismod.rs` has no `Rc`
(removed-by-condition) derivative function; the formula `dRc = χ·C`
appears in the spec (§4.1) and, verbatim, as `drcdt` in the repository's
integration test `tests/test_dismod.rs`. -/
def Model.drcdt (m : Model) (c : ℚ) : ℚ :=
  m.chi * c

/-- Modelled from the spec: the current `dismod.rs` has no `Ro`
(removed-by-other-causes) derivative function; the formula
`dRo = ω·(S+C)` appears in the spec (§4.1) and, verbatim, as `drodt` in
the repository's integration test `tests/test_dismod.rs`. -/
def Model.drodt (m : Model) (s c : ℚ) : ℚ :=
  m.omega * (s + c)

/-- Body of the loop in `Model::run_euler` of `dismod.rs` at loop index
`t` (the `println!` trace is a side effect outside the state). -/
def Model.eulerStep (m : Model) (t : Nat) : Option Model := do
  let h := m.step_size
  let st ← matRead m.s t
  let ct ← matRead m.c t
  let ds := m.dsdt st ct
  let dc := m.dcdt st ct
  let s2 ← matWrite m.s (t + 1) (st + (h * ds))
  let c2 ← matWrite m.c (t + 1) (ct + (h * dc))
  some { m with s := s2, c := c2 }

/-- `Model::run_euler` of `dismod.rs`: `for t in 1..n - 1` with
`n = (length as f64 / h).ceil().to_usize()`.  Note the loop starts at
`t = 1`, unlike the SIR Euler loop which starts at 0. -/
def Model.run_euler (m : Model) : Option Model :=
  let n := fCeil ((m.length : ℚ) / m.step_size)
  forLoopM Model.eulerStep 1 (n - 1 - 1) m

/-- `Model::next_y` of `dismod.rs`. -/
def Model.next_y (_m : Model) (y k h : ℚ) : ℚ := y + (k * h)

/-- `Model::rk4_step` of `dismod.rs`, returning `(k[1], k[2], k[3], k[4])`.
As in `sir.rs`, the `for i in 0..4` loop over the zero-initialized `y`,
`k` arrays with stage steps `[h/2, h/2, h, h]` is unrolled; `k[0]` stays
zero and `y[4]` is written but never read. -/
def Model.rk4_step (m : Model) (t : Nat) :
    Option (SystemVars × SystemVars × SystemVars × SystemVars) := do
  let h0 := m.step_size / 2
  let h1 := m.step_size / 2
  let h2 := m.step_size
  let y0s ← matRead m.s t
  let y0c ← matRead m.c t
  let k1 : SystemVars := ⟨m.dsdt y0s y0c, m.dcdt y0s y0c⟩
  let y1 : SystemVars := ⟨m.next_y y0s k1.s h0, m.next_y y0c k1.c h0⟩
  let k2 : SystemVars := ⟨m.dsdt y1.s y1.c, m.dcdt y1.s y1.c⟩
  let y2 : SystemVars := ⟨m.next_y y0s k2.s h1, m.next_y y0c k2.c h1⟩
  let k3 : SystemVars := ⟨m.dsdt y2.s y2.c, m.dcdt y2.s y2.c⟩
  let y3 : SystemVars := ⟨m.next_y y0s k3.s h2, m.next_y y0c k3.c h2⟩
  let k4 : SystemVars := ⟨m.dsdt y3.s y3.c, m.dcdt y3.s y3.c⟩
  some (k1, k2, k3, k4)

/-- Body of the loop in `Model::run_rk4` of `dismod.rs` at loop index `t`. -/
def Model.rk4Update (m : Model) (t : Nat) : Option Model := do
  let (k1, k2, k3, k4) ← m.rk4_step t
  let ds := (k1.s + (2 * k2.s) + (2 * k3.s) + k4.s) * (m.step_size / 6)
  let dc := (k1.c + (2 * k2.c) + (2 * k3.c) + k4.c) * (m.step_size / 6)
  let st ← matRead m.s t
  let ct ← matRead m.c t
  let s2 ← matWrite m.s (t + 1) (st + ds)
  let c2 ← matWrite m.c (t + 1) (ct + dc)
  some { m with s := s2, c := c2 }

/-- `Model::run_rk4` of `dismod.rs`: `for t in 0..n - 1` with
`n = (length as f64 / step_size).ceil().to_usize()`. -/
def Model.run_rk4 (m : Model) : Option Model :=
  let n := fCeil ((m.length : ℚ) / m.step_size)
  forLoopM Model.rk4Update 0 (n - 1) m

end Dismod

/-- The staged classical RK4 update of spec §4.3 for the SIR state vector,
written from the spec formula: `k1 = f(x_t)`, `k2 = f(x_t + k1·h/2)`,
`k3 = f(x_t + k2·h/2)`, `k4 = f(x_t + k3·h)`,
`x_[t+1] = x_t + (h/6)·(k1 + 2k2 + 2k3 + k4)`, with all compartments
advanced together to each intermediate state. -/
def SIR.specRK4Next (m : SIR.Model) (x : SIR.SystemVars) : SIR.SystemVars :=
  let h := m.step_size
  let k1s := m.dsdt x.s x.i
  let k1i := m.didt x.s x.i
  let k1r := m.drdt x.i
  let k2s := m.dsdt (x.s + k1s * h / 2) (x.i + k1i * h / 2)
  let k2i := m.didt (x.s + k1s * h / 2) (x.i + k1i * h / 2)
  let k2r := m.drdt (x.i + k1i * h / 2)
  let k3s := m.dsdt (x.s + k2s * h / 2) (x.i + k2i * h / 2)
  let k3i := m.didt (x.s + k2s * h / 2) (x.i + k2i * h / 2)
  let k3r := m.drdt (x.i + k2i * h / 2)
  let k4s := m.dsdt (x.s + k3s * h) (x.i + k3i * h)
  let k4i := m.didt (x.s + k3s * h) (x.i + k3i * h)
  let k4r := m.drdt (x.i + k3i * h)
  ⟨x.s + (h / 6) * (k1s + 2 * k2s + 2 * k3s + k4s),
   x.i + (h / 6) * (k1i + 2 * k2i + 2 * k3i + k4i),
   x.r + (h / 6) * (k1r + 2 * k2r + 2 * k3r + k4r)⟩

/-- The staged classical RK4 update of spec §4.3 for the DisMod state
vector, written from the spec formula exactly as `SIR.specRK4Next`. -/
def Dismod.specRK4Next (m : Dismod.Model) (x : Dismod.SystemVars) : Dismod.SystemVars :=
  let h := m.step_size
  let k1s := m.dsdt x.s x.c
  let k1c := m.dcdt x.s x.c
  let k2s := m.dsdt (x.s + k1s * h / 2) (x.c + k1c * h / 2)
  let k2c := m.dcdt (x.s + k1s * h / 2) (x.c + k1c * h / 2)
  let k3s := m.dsdt (x.s + k2s * h / 2) (x.c + k2c * h / 2)
  let k3c := m.dcdt (x.s + k2s * h / 2) (x.c + k2c * h / 2)
  let k4s := m.dsdt (x.s + k3s * h) (x.c + k3c * h)
  let k4c := m.dcdt (x.s + k3s * h) (x.c + k3c * h)
  ⟨x.s + (h / 6) * (k1s + 2 * k2s + 2 * k3s + k4s),
   x.c + (h / 6) * (k1c + 2 * k2c + 2 * k3c + k4c)⟩

/-- The non-buffer fields of the SIR model, bundled for frame reasoning. -/
def SIR.params (m : SIR.Model) : Nat × ℚ × ℚ × ℚ × ℚ × ℚ × ℚ :=
  (m.length, m.step_size, m.i_popf_init, m.r_popf_init, m.incidence_rate,
   m.removal_rate, m.recovery_rate)

/-- The non-buffer fields of the DisMod model, bundled for frame
reasoning. -/
def Dismod.params (m : Dismod.Model) : Nat × ℚ × ℚ × ℚ × ℚ × ℚ × ℚ :=
  (m.length, m.step_size, m.c_init, m.iota, m.rho, m.chi, m.omega)

/-- A successful `matRead` certifies the index is in bounds and returns
the buffer entry. -/
theorem matRead_eq_some {xs : List ℚ} {i : Nat} {q : ℚ}
    (h : matRead xs i = some q) : i < xs.length ∧ q = xs.getD i 0 := by
  unfold matRead at h
  split at h
  · injection h with hv
    exact ⟨by assumption, hv.symm⟩
  · simp at h

/-- A successful `matWrite` certifies the index is in bounds and returns
the updated buffer. -/
theorem matWrite_eq_some {xs ys : List ℚ} {i : Nat} {v : ℚ}
    (h : matWrite xs i v = some ys) : i < xs.length ∧ ys = xs.set i v := by
  unfold matWrite at h
  split at h
  · injection h with hv
    exact ⟨by assumption, hv.symm⟩
  · simp at h

/-- Reading at the just-written index of a `List.set`. -/
theorem getD_set_same (xs : List ℚ) (i : Nat) (v d : ℚ) (h : i < xs.length) :
    (xs.set i v).getD i d = v := by
  simp [List.getD_eq_getElem?_getD, List.getElem?_set_eq_of_lt, h]

/-- Reading away from the written index of a `List.set`. -/
theorem getD_set_other (xs : List ℚ) (i j : Nat) (v d : ℚ) (h : i ≠ j) :
    (xs.set i v).getD j d = xs.getD j d := by
  simp [List.getD_eq_getElem?_getD, List.getElem?_set_ne h]

/-- Inversion of a successful SIR Euler loop body: all accesses were in
bounds and the three buffers are updated at index `i + 1` by the Euler
rule read at index `i`. -/
theorem sirEulerStep_inv {m m2 : SIR.Model} {i : Nat}
    (h : m.eulerStep i = some m2) :
    i < m.s_popf.length ∧ i < m.i_popf.length ∧ i < m.r_popf.length ∧
    i + 1 < m.s_popf.length ∧ i + 1 < m.i_popf.length ∧ i + 1 < m.r_popf.length ∧
    m2 = { m with
      s_popf := m.s_popf.set (i + 1)
        (m.s_popf.getD i 0
          + m.step_size * m.dsdt (m.s_popf.getD i 0) (m.i_popf.getD i 0)),
      i_popf := m.i_popf.set (i + 1)
        (m.i_popf.getD i 0
          + m.step_size * m.didt (m.s_popf.getD i 0) (m.i_popf.getD i 0)),
      r_popf := m.r_popf.set (i + 1)
        (m.r_popf.getD i 0 + m.step_size * m.drdt (m.i_popf.getD i 0)) } := by
  simp only [SIR.Model.eulerStep, Option.bind_eq_bind, Option.bind_eq_some,
    Option.some.injEq] at h
  obtain ⟨si, hsi, ii, hii, ri, hri, s2, hs2, i2, hi2, r2, hr2, hm2⟩ := h
  obtain ⟨hsb, hsv⟩ := matRead_eq_some hsi
  obtain ⟨hib, hiv⟩ := matRead_eq_some hii
  obtain ⟨hrb, hrv⟩ := matRead_eq_some hri
  obtain ⟨hsb2, hsv2⟩ := matWrite_eq_some hs2
  obtain ⟨hib2, hiv2⟩ := matWrite_eq_some hi2
  obtain ⟨hrb2, hrv2⟩ := matWrite_eq_some hr2
  subst hsv hiv hrv hsv2 hiv2 hrv2 hm2
  exact ⟨hsb, hib, hrb, hsb2, hib2, hrb2, rfl⟩

/-- Inversion of a successful SIR RK4 loop body: all accesses were in
bounds and the buffers are updated at `t + 1` by exactly the staged RK4
formula of spec §4.3 applied to the index-`t` state vector. -/
theorem sirRk4Update_inv {m m2 : SIR.Model} {t : Nat}
    (h : m.rk4Update t = some m2) :
    t < m.s_popf.length ∧ t < m.i_popf.length ∧ t < m.r_popf.length ∧
    t + 1 < m.s_popf.length ∧ t + 1 < m.i_popf.length ∧ t + 1 < m.r_popf.length ∧
    m2 = { m with
      s_popf := m.s_popf.set (t + 1)
        (SIR.specRK4Next m
          ⟨m.s_popf.getD t 0, m.i_popf.getD t 0, m.r_popf.getD t 0⟩).s,
      i_popf := m.i_popf.set (t + 1)
        (SIR.specRK4Next m
          ⟨m.s_popf.getD t 0, m.i_popf.getD t 0, m.r_popf.getD t 0⟩).i,
      r_popf := m.r_popf.set (t + 1)
        (SIR.specRK4Next m
          ⟨m.s_popf.getD t 0, m.i_popf.getD t 0, m.r_popf.getD t 0⟩).r } := by
  simp only [SIR.Model.rk4Update, SIR.Model.rk4_step, Option.bind_eq_bind,
    Option.bind_eq_some, Option.some.injEq] at h
  obtain ⟨ks, ⟨y0s, hy0s, y0i, hy0i, y0r, hy0r, hks⟩, h⟩ := h
  subst hks
  obtain ⟨st, hst, it, hit, rt, hrt, s2, hs2, i2, hi2, r2, hr2, hm2⟩ := h
  obtain ⟨hsb, hsv⟩ := matRead_eq_some hy0s
  obtain ⟨hib, hiv⟩ := matRead_eq_some hy0i
  obtain ⟨hrb, hrv⟩ := matRead_eq_some hy0r
  obtain ⟨hsb1, hsv1⟩ := matRead_eq_some hst
  obtain ⟨hib1, hiv1⟩ := matRead_eq_some hit
  obtain ⟨hrb1, hrv1⟩ := matRead_eq_some hrt
  obtain ⟨hsb2, hsv2⟩ := matWrite_eq_some hs2
  obtain ⟨hib2, hiv2⟩ := matWrite_eq_some hi2
  obtain ⟨hrb2, hrv2⟩ := matWrite_eq_some hr2
  subst hsv hiv hrv hsv1 hiv1 hrv1 hsv2 hiv2 hrv2 hm2
  refine ⟨hsb, hib, hrb, hsb2, hib2, hrb2, ?_⟩
  simp only [SIR.Model.mk.injEq, true_and]
  refine ⟨congrArg _ ?_, congrArg _ ?_, congrArg _ ?_⟩ <;>
    · simp only [SIR.specRK4Next, SIR.Model.next_y, mul_div_assoc]
      rw [mul_comm]

/-- Inversion of a successful DisMod Euler loop body: all accesses were
in bounds and the two buffers are updated at index `t + 1` by the Euler
rule read at index `t`. -/
theorem dmEulerStep_inv {m m2 : Dismod.Model} {t : Nat}
    (h : m.eulerStep t = some m2) :
    t < m.s.length ∧ t < m.c.length ∧
    t + 1 < m.s.length ∧ t + 1 < m.c.length ∧
    m2 = { m with
      s := m.s.set (t + 1)
        (m.s.getD t 0 + m.step_size * m.dsdt (m.s.getD t 0) (m.c.getD t 0)),
      c := m.c.set (t + 1)
        (m.c.getD t 0 + m.step_size * m.dcdt (m.s.getD t 0) (m.c.getD t 0)) } := by
  simp only [Dismod.Model.eulerStep, Option.bind_eq_bind, Option.bind_eq_some,
    Option.some.injEq] at h
  obtain ⟨st, hst, ct, hct, s2, hs2, c2, hc2, hm2⟩ := h
  obtain ⟨hsb, hsv⟩ := matRead_eq_some hst
  obtain ⟨hcb, hcv⟩ := matRead_eq_some hct
  obtain ⟨hsb2, hsv2⟩ := matWrite_eq_some hs2
  obtain ⟨hcb2, hcv2⟩ := matWrite_eq_some hc2
  subst hsv hcv hsv2 hcv2 hm2
  exact ⟨hsb, hcb, hsb2, hcb2, rfl⟩

/-- Inversion of a successful DisMod RK4 loop body: all accesses were in
bounds and the buffers are updated at `t + 1` by exactly the staged RK4
formula of spec §4.3 applied to the index-`t` state vector. -/
theorem dmRk4Update_inv {m m2 : Dismod.Model} {t : Nat}
    (h : m.rk4Update t = some m2) :
    t < m.s.length ∧ t < m.c.length ∧
    t + 1 < m.s.length ∧ t + 1 < m.c.length ∧
    m2 = { m with
      s := m.s.set (t + 1)
        (Dismod.specRK4Next m ⟨m.s.getD t 0, m.c.getD t 0⟩).s,
      c := m.c.set (t + 1)
        (Dismod.specRK4Next m ⟨m.s.getD t 0, m.c.getD t 0⟩).c } := by
  simp only [Dismod.Model.rk4Update, Dismod.Model.rk4_step, Option.bind_eq_bind,
    Option.bind_eq_some, Option.some.injEq] at h
  obtain ⟨ks, ⟨y0s, hy0s, y0c, hy0c, hks⟩, h⟩ := h
  subst hks
  obtain ⟨st, hst, ct, hct, s2, hs2, c2, hc2, hm2⟩ := h
  obtain ⟨hsb, hsv⟩ := matRead_eq_some hy0s
  obtain ⟨hcb, hcv⟩ := matRead_eq_some hy0c
  obtain ⟨hsb1, hsv1⟩ := matRead_eq_some hst
  obtain ⟨hcb1, hcv1⟩ := matRead_eq_some hct
  obtain ⟨hsb2, hsv2⟩ := matWrite_eq_some hs2
  obtain ⟨hcb2, hcv2⟩ := matWrite_eq_some hc2
  subst hsv hcv hsv1 hcv1 hsv2 hcv2 hm2
  refine ⟨hsb, hcb, hsb2, hcb2, ?_⟩
  simp only [Dismod.Model.mk.injEq, true_and]
  refine ⟨congrArg _ ?_, congrArg _ ?_⟩ <;>
    · simp only [Dismod.specRK4Next, Dismod.Model.next_y, mul_div_assoc]
      rw [mul_comm]

/-- Loop-invariant principle for `forLoopM`, indexed by the loop
counter. -/
theorem forLoopM_ind {α : Type} (step : α → Nat → Option α) (P : Nat → α → Prop)
    (hstep : ∀ a i a2, step a i = some a2 → P i a → P (i + 1) a2) :
    ∀ b i a a2, forLoopM step i b a = some a2 → P i a → P (i + b) a2 := by
  intro b
  induction b with
  | zero =>
    intro i a a2 h hP
    simp only [forLoopM] at h
    cases h
    simpa using hP
  | succ b ih =>
    intro i a a2 h hP
    simp only [forLoopM, Option.bind_eq_some] at h
    obtain ⟨a1, h1, h2⟩ := h
    have hres := ih (i + 1) a1 a2 h2 (hstep a i a1 h1 hP)
    have e : i + (b + 1) = (i + 1) + b := by omega
    rw [e]
    exact hres

/-- Invariant carried through the SIR RK4 loop relative to the pre-run
model `m`: the parameters, the buffer lengths and the index-0 entries
never change, and up to the loop counter the buffers satisfy the staged
RK4 recurrence. -/
def SIR.rk4Inv (m : SIR.Model) (i : Nat) (a : SIR.Model) : Prop :=
  SIR.params a = SIR.params m ∧
  a.s_popf.length = m.s_popf.length ∧
  a.i_popf.length = m.i_popf.length ∧
  a.r_popf.length = m.r_popf.length ∧
  a.s_popf.getD 0 0 = m.s_popf.getD 0 0 ∧
  a.i_popf.getD 0 0 = m.i_popf.getD 0 0 ∧
  a.r_popf.getD 0 0 = m.r_popf.getD 0 0 ∧
  ∀ t, t + 1 ≤ i →
    (⟨a.s_popf.getD (t + 1) 0, a.i_popf.getD (t + 1) 0,
      a.r_popf.getD (t + 1) 0⟩ : SIR.SystemVars)
      = SIR.specRK4Next a
          ⟨a.s_popf.getD t 0, a.i_popf.getD t 0, a.r_popf.getD t 0⟩

/-- One SIR RK4 loop body preserves `SIR.rk4Inv`. -/
theorem sirRk4Inv_step (m : SIR.Model) :
    ∀ a i a2, a.rk4Update i = some a2 →
      SIR.rk4Inv m i a → SIR.rk4Inv m (i + 1) a2 := by
  intro a i a2 hstep hP
  obtain ⟨hparams, hsl, hil, hrl, hs0, hi0, hr0, hrec⟩ := hP
  obtain ⟨hb1, hb2, hb3, hb4, hb5, hb6, hm2⟩ := sirRk4Update_inv hstep
  subst hm2
  refine ⟨?_, ?_, ?_, ?_, ?_, ?_, ?_, ?_⟩
  · simpa [SIR.params] using congrArg (fun p => p) hparams
  · simpa [List.length_set] using hsl
  · simpa [List.length_set] using hil
  · simpa [List.length_set] using hrl
  · show (a.s_popf.set (i + 1) _).getD 0 0 = _
    rw [getD_set_other _ _ _ _ _ (by omega)]
    exact hs0
  · show (a.i_popf.set (i + 1) _).getD 0 0 = _
    rw [getD_set_other _ _ _ _ _ (by omega)]
    exact hi0
  · show (a.r_popf.set (i + 1) _).getD 0 0 = _
    rw [getD_set_other _ _ _ _ _ (by omega)]
    exact hr0
  · intro t ht
    rcases Nat.lt_or_ge t i with hlt | hge
    · show (⟨(a.s_popf.set (i + 1) _).getD (t + 1) 0,
            (a.i_popf.set (i + 1) _).getD (t + 1) 0,
            (a.r_popf.set (i + 1) _).getD (t + 1) 0⟩ : SIR.SystemVars) = _
      rw [getD_set_other _ _ _ _ _ (by omega), getD_set_other _ _ _ _ _ (by omega),
        getD_set_other _ _ _ _ _ (by omega), getD_set_other _ _ _ _ _ (by omega),
        getD_set_other _ _ _ _ _ (by omega), getD_set_other _ _ _ _ _ (by omega)]
      exact hrec t (by omega)
    · have hti : t = i := by omega
      subst hti
      show (⟨(a.s_popf.set (t + 1) _).getD (t + 1) 0,
            (a.i_popf.set (t + 1) _).getD (t + 1) 0,
            (a.r_popf.set (t + 1) _).getD (t + 1) 0⟩ : SIR.SystemVars) = _
      rw [getD_set_same _ _ _ _ hb4, getD_set_same _ _ _ _ hb5,
        getD_set_same _ _ _ _ hb6, getD_set_other _ _ _ _ _ (by omega),
        getD_set_other _ _ _ _ _ (by omega), getD_set_other _ _ _ _ _ (by omega)]
      rfl

/-- Characterization of a completed SIR `run_rk4`: frame facts plus the
staged RK4 recurrence of spec §4.3 at every computed index. -/
theorem sirRun_rk4_spec {m m2 : SIR.Model} (h : m.run_rk4 = some m2) :
    SIR.rk4Inv m (fCeil ((m.length : ℚ) / m.step_size) - 1) m2 := by
  have hbase : SIR.rk4Inv m 0 m :=
    ⟨rfl, rfl, rfl, rfl, rfl, rfl, rfl, fun t ht => by omega⟩
  have hrun : forLoopM SIR.Model.rk4Update 0
      (fCeil ((m.length : ℚ) / m.step_size) - 1) m = some m2 := by
    simpa [SIR.Model.run_rk4] using h
  simpa using forLoopM_ind SIR.Model.rk4Update (SIR.rk4Inv m) (sirRk4Inv_step m)
    (fCeil ((m.length : ℚ) / m.step_size) - 1) 0 m m2 hrun hbase

/-- Invariant carried through the DisMod RK4 loop relative to the pre-run
model `m`. -/
def Dismod.rk4Inv (m : Dismod.Model) (i : Nat) (a : Dismod.Model) : Prop :=
  Dismod.params a = Dismod.params m ∧
  a.s.length = m.s.length ∧
  a.c.length = m.c.length ∧
  a.s.getD 0 0 = m.s.getD 0 0 ∧
  a.c.getD 0 0 = m.c.getD 0 0 ∧
  ∀ t, t + 1 ≤ i →
    (⟨a.s.getD (t + 1) 0, a.c.getD (t + 1) 0⟩ : Dismod.SystemVars)
      = Dismod.specRK4Next a ⟨a.s.getD t 0, a.c.getD t 0⟩

/-- One DisMod RK4 loop body preserves `Dismod.rk4Inv`. -/
theorem dmRk4Inv_step (m : Dismod.Model) :
    ∀ a i a2, a.rk4Update i = some a2 →
      Dismod.rk4Inv m i a → Dismod.rk4Inv m (i + 1) a2 := by
  intro a i a2 hstep hP
  obtain ⟨hparams, hsl, hcl, hs0, hc0, hrec⟩ := hP
  obtain ⟨hb1, hb2, hb3, hb4, hm2⟩ := dmRk4Update_inv hstep
  subst hm2
  refine ⟨?_, ?_, ?_, ?_, ?_, ?_⟩
  · simpa [Dismod.params] using hparams
  · simpa [List.length_set] using hsl
  · simpa [List.length_set] using hcl
  · show (a.s.set (i + 1) _).getD 0 0 = _
    rw [getD_set_other _ _ _ _ _ (by omega)]
    exact hs0
  · show (a.c.set (i + 1) _).getD 0 0 = _
    rw [getD_set_other _ _ _ _ _ (by omega)]
    exact hc0
  · intro t ht
    rcases Nat.lt_or_ge t i with hlt | hge
    · show (⟨(a.s.set (i + 1) _).getD (t + 1) 0,
            (a.c.set (i + 1) _).getD (t + 1) 0⟩ : Dismod.SystemVars) = _
      rw [getD_set_other _ _ _ _ _ (by omega), getD_set_other _ _ _ _ _ (by omega),
        getD_set_other _ _ _ _ _ (by omega), getD_set_other _ _ _ _ _ (by omega)]
      exact hrec t (by omega)
    · have hti : t = i := by omega
      subst hti
      show (⟨(a.s.set (t + 1) _).getD (t + 1) 0,
            (a.c.set (t + 1) _).getD (t + 1) 0⟩ : Dismod.SystemVars) = _
      rw [getD_set_same _ _ _ _ hb3, getD_set_same _ _ _ _ hb4,
        getD_set_other _ _ _ _ _ (by omega), getD_set_other _ _ _ _ _ (by omega)]
      rfl

/-- Characterization of a completed DisMod `run_rk4`: frame facts plus
the staged RK4 recurrence of spec §4.3 at every computed index. -/
theorem dmRun_rk4_spec {m m2 : Dismod.Model} (h : m.run_rk4 = some m2) :
    Dismod.rk4Inv m (fCeil ((m.length : ℚ) / m.step_size) - 1) m2 := by
  have hbase : Dismod.rk4Inv m 0 m :=
    ⟨rfl, rfl, rfl, rfl, rfl, fun t ht => by omega⟩
  have hrun : forLoopM Dismod.Model.rk4Update 0
      (fCeil ((m.length : ℚ) / m.step_size) - 1) m = some m2 := by
    simpa [Dismod.Model.run_rk4] using h
  simpa using forLoopM_ind Dismod.Model.rk4Update (Dismod.rk4Inv m)
    (dmRk4Inv_step m)
    (fCeil ((m.length : ℚ) / m.step_size) - 1) 0 m m2 hrun hbase

/-- Frame facts of a completed SIR `run_euler`: the parameters, the
buffer lengths and the index-0 entries are unchanged. -/
theorem sirRun_euler_frame {m m2 : SIR.Model} (h : m.run_euler = some m2) :
    SIR.params m2 = SIR.params m ∧
    m2.s_popf.length = m.s_popf.length ∧
    m2.i_popf.length = m.i_popf.length ∧
    m2.r_popf.length = m.r_popf.length ∧
    m2.s_popf.getD 0 0 = m.s_popf.getD 0 0 ∧
    m2.i_popf.getD 0 0 = m.i_popf.getD 0 0 ∧
    m2.r_popf.getD 0 0 = m.r_popf.getD 0 0 := by
  have hrun : forLoopM SIR.Model.eulerStep 0
      (fCeil ((m.length : ℚ) / m.step_size) - 1) m = some m2 := by
    simpa [SIR.Model.run_euler] using h
  refine forLoopM_ind SIR.Model.eulerStep
    (fun _ a =>
      SIR.params a = SIR.params m ∧
      a.s_popf.length = m.s_popf.length ∧
      a.i_popf.length = m.i_popf.length ∧
      a.r_popf.length = m.r_popf.length ∧
      a.s_popf.getD 0 0 = m.s_popf.getD 0 0 ∧
      a.i_popf.getD 0 0 = m.i_popf.getD 0 0 ∧
      a.r_popf.getD 0 0 = m.r_popf.getD 0 0)
    ?_ _ 0 m m2 hrun ⟨rfl, rfl, rfl, rfl, rfl, rfl, rfl⟩
  intro a i a2 hstep hP
  obtain ⟨hparams, hsl, hil, hrl, hs0, hi0, hr0⟩ := hP
  obtain ⟨_, _, _, _, _, _, hm2⟩ := sirEulerStep_inv hstep
  subst hm2
  refine ⟨?_, ?_, ?_, ?_, ?_, ?_, ?_⟩
  · simpa [SIR.params] using hparams
  · simpa [List.length_set] using hsl
  · simpa [List.length_set] using hil
  · simpa [List.length_set] using hrl
  · show (a.s_popf.set (i + 1) _).getD 0 0 = _
    rw [getD_set_other _ _ _ _ _ (by omega)]
    exact hs0
  · show (a.i_popf.set (i + 1) _).getD 0 0 = _
    rw [getD_set_other _ _ _ _ _ (by omega)]
    exact hi0
  · show (a.r_popf.set (i + 1) _).getD 0 0 = _
    rw [getD_set_other _ _ _ _ _ (by omega)]
    exact hr0

/-- Frame facts of a completed DisMod `run_euler`: the parameters, the
buffer lengths and the index-0 entries are unchanged. -/
theorem dmRun_euler_frame {m m2 : Dismod.Model} (h : m.run_euler = some m2) :
    Dismod.params m2 = Dismod.params m ∧
    m2.s.length = m.s.length ∧
    m2.c.length = m.c.length ∧
    m2.s.getD 0 0 = m.s.getD 0 0 ∧
    m2.c.getD 0 0 = m.c.getD 0 0 := by
  have hrun : forLoopM Dismod.Model.eulerStep 1
      (fCeil ((m.length : ℚ) / m.step_size) - 1 - 1) m = some m2 := by
    simpa [Dismod.Model.run_euler] using h
  refine forLoopM_ind Dismod.Model.eulerStep
    (fun _ a =>
      Dismod.params a = Dismod.params m ∧
      a.s.length = m.s.length ∧
      a.c.length = m.c.length ∧
      a.s.getD 0 0 = m.s.getD 0 0 ∧
      a.c.getD 0 0 = m.c.getD 0 0)
    ?_ _ 1 m m2 hrun ⟨rfl, rfl, rfl, rfl, rfl⟩
  intro a i a2 hstep hP
  obtain ⟨hparams, hsl, hcl, hs0, hc0⟩ := hP
  obtain ⟨_, _, _, _, hm2⟩ := dmEulerStep_inv hstep
  subst hm2
  refine ⟨?_, ?_, ?_, ?_, ?_⟩
  · simpa [Dismod.params] using hparams
  · simpa [List.length_set] using hsl
  · simpa [List.length_set] using hcl
  · show (a.s.set (i + 1) _).getD 0 0 = _
    rw [getD_set_other _ _ _ _ _ (by omega)]
    exact hs0
  · show (a.c.set (i + 1) _).getD 0 0 = _
    rw [getD_set_other _ _ _ _ _ (by omega)]
    exact hc0

/-- A successful SIR `init_popf` implies a positive row count, and the
result is fully determined by the non-buffer fields. -/
theorem sirInit_popf_inv {m m1 : SIR.Model} (h : m.init_popf = some m1) :
    0 < fTrunc ((m.length : ℚ) / m.step_size) ∧
    m1 = { m with
      s_popf := (List.replicate (fTrunc ((m.length : ℚ) / m.step_size)) 0).set 0
        (1 - m.i_popf_init - m.r_popf_init),
      i_popf := (List.replicate (fTrunc ((m.length : ℚ) / m.step_size)) 0).set 0
        m.i_popf_init,
      r_popf := (List.replicate (fTrunc ((m.length : ℚ) / m.step_size)) 0).set 0
        m.r_popf_init } := by
  simp only [SIR.Model.init_popf, Option.bind_eq_bind, Option.bind_eq_some,
    Option.some.injEq] at h
  obtain ⟨s0, hs0, i0, hi0, r0, hr0, hm1⟩ := h
  obtain ⟨hsb, hsv⟩ := matWrite_eq_some hs0
  obtain ⟨_, hiv⟩ := matWrite_eq_some hi0
  obtain ⟨_, hrv⟩ := matWrite_eq_some hr0
  subst hsv hiv hrv hm1
  exact ⟨by simpa using hsb, rfl⟩

/-- SIR `init_popf` succeeds whenever the computed row count is
positive. -/
theorem sirInit_popf_eq (m : SIR.Model)
    (h : 0 < fTrunc ((m.length : ℚ) / m.step_size)) :
    m.init_popf = some { m with
      s_popf := (List.replicate (fTrunc ((m.length : ℚ) / m.step_size)) 0).set 0
        (1 - m.i_popf_init - m.r_popf_init),
      i_popf := (List.replicate (fTrunc ((m.length : ℚ) / m.step_size)) 0).set 0
        m.i_popf_init,
      r_popf := (List.replicate (fTrunc ((m.length : ℚ) / m.step_size)) 0).set 0
        m.r_popf_init } := by
  simp [SIR.Model.init_popf, matWrite, h]

/-- A successful DisMod `init_popf` implies both buffers are nonempty,
and the result only rewrites index 0 of each buffer (nothing is
reallocated, unlike SIR `init_popf`). -/
theorem dmInit_popf_inv {m m1 : Dismod.Model}
    (h : m.init_popf = some m1) :
    0 < m.s.length ∧ 0 < m.c.length ∧
    m1 = { m with s := m.s.set 0 (1 - m.c_init), c := m.c.set 0 m.c_init } := by
  simp only [Dismod.Model.init_popf, Option.bind_eq_bind, Option.bind_eq_some,
    Option.some.injEq] at h
  obtain ⟨s0, hs0, c0, hc0, hm1⟩ := h
  obtain ⟨hsb, hsv⟩ := matWrite_eq_some hs0
  obtain ⟨hcb, hcv⟩ := matWrite_eq_some hc0
  subst hsv hcv hm1
  exact ⟨hsb, hcb, rfl⟩

/-- DisMod `init_popf` succeeds whenever both buffers are nonempty. -/
theorem dmInit_popf_eq (m : Dismod.Model)
    (hs : 0 < m.s.length) (hc : 0 < m.c.length) :
    m.init_popf = some
      { m with s := m.s.set 0 (1 - m.c_init), c := m.c.set 0 m.c_init } := by
  simp [Dismod.Model.init_popf, matWrite, hs, hc]

/-! Concrete example models used by the claim theorems, counterexamples
and witnesses. -/

/-- The DisMod demonstration scenario of spec §8: length 10, unit step,
`c_init = 0.01`, ι = 0.01, ρ = 0.02, χ = 0.03, ω = 0.04. -/
def dmDemo : Dismod.Model :=
  Dismod.Model.new.configure 10 1 (1/100) (1/100) (2/100) (3/100) (4/100)

/-- The demonstration scenario after `init_popf`, written out: ten rows
per buffer, row 0 holding the initial fractions. -/
def dmDemoInit : Dismod.Model :=
  { length := 10, step_size := 1, c_init := 1/100, iota := 1/100, rho := 2/100
    chi := 3/100, omega := 4/100
    s := [99/100, 0, 0, 0, 0, 0, 0, 0, 0, 0]
    c := [1/100, 0, 0, 0, 0, 0, 0, 0, 0, 0] }

/-- An SIR model with `length = 1` and `step_size = 0.3`, where
`length/step_size` is fractional: allocation truncates to 3 rows while
the run loops use the ceiling 4. -/
def sirFrac : SIR.Model :=
  { length := 1, step_size := 3/10, i_popf_init := 1/100, r_popf_init := 0
    incidence_rate := 2/100, removal_rate := 3/100, recovery_rate := 4/100
    s_popf := [], i_popf := [], r_popf := [] }

/-- `sirFrac` after `init_popf`, written out: three rows per buffer. -/
def sirFracInit : SIR.Model :=
  { length := 1, step_size := 3/10, i_popf_init := 1/100, r_popf_init := 0
    incidence_rate := 2/100, removal_rate := 3/100, recovery_rate := 4/100
    s_popf := [99/100, 0, 0], i_popf := [1/100, 0, 0], r_popf := [0, 0, 0] }

/-- A DisMod model configured with the same fractional
`length/step_size`. -/
def dmFrac : Dismod.Model :=
  Dismod.Model.new.configure 1 (3/10) (1/100) (1/100) (2/100) (3/100) (4/100)

/-- `dmFrac` after `init_popf`, written out: three rows per buffer. -/
def dmFracInit : Dismod.Model :=
  { length := 1, step_size := 3/10, c_init := 1/100, iota := 1/100, rho := 2/100
    chi := 3/100, omega := 4/100, s := [99/100, 0, 0], c := [1/100, 0, 0] }

/-- A small SIR model (two rows) on which every run completes; used by
witnesses. -/
def sirP : SIR.Model :=
  { length := 2, step_size := 1, i_popf_init := 1/100, r_popf_init := 0
    incidence_rate := 2/100, removal_rate := 3/100, recovery_rate := 4/100
    s_popf := [], i_popf := [], r_popf := [] }

/-- `sirP` after `init_popf`. -/
def sirPInit : SIR.Model := (sirP.init_popf).getD sirP

/-- `sirPInit` after `run_euler`. -/
def sirPE : SIR.Model := (sirPInit.run_euler).getD sirPInit

/-- `sirPInit` after `run_rk4`. -/
def sirPR : SIR.Model := (sirPInit.run_rk4).getD sirPInit

/-- A small DisMod model (two rows) on which every run completes; used by
witnesses and the C7 counterexample. -/
def dmP : Dismod.Model :=
  Dismod.Model.new.configure 2 1 (1/100) (1/100) (2/100) (3/100) (4/100)

/-- `dmP` after `init_popf`. -/
def dmPInit : Dismod.Model := (dmP.init_popf).getD dmP

/-- `dmPInit` after `run_euler`. -/
def dmPE : Dismod.Model := (dmPInit.run_euler).getD dmPInit

/-- `dmPInit` after `run_rk4`. -/
def dmPR : Dismod.Model := (dmPInit.run_rk4).getD dmPInit

/-- `dmPR` after calling `init_popf` a second time. -/
def dmPReinit : Dismod.Model := (dmPR.init_popf).getD dmPR

/-- Evaluation of the demo scenario initialization. -/
theorem dmDemo_init_eval : dmDemo.init_popf = some dmDemoInit := by
  norm_num [dmDemo, dmDemoInit, Dismod.Model.new, Dismod.Model.configure,
    Dismod.Model.init_popf, matWrite, fTrunc, List.replicate]

/-- Evaluation of the demo scenario Euler run: because the loop starts at
`t = 1` and rows 1..9 are all zero, every write stores a zero over a zero
and the model comes back unchanged. -/
theorem dmDemo_euler_eval : dmDemoInit.run_euler = some dmDemoInit := by
  norm_num [dmDemoInit, Dismod.Model.run_euler, Dismod.Model.eulerStep,
    Dismod.Model.dsdt, Dismod.Model.dcdt, matWrite, matRead, fCeil,
    forLoopM]

/-- C1: the claim states that after `run_euler` the Euler recurrence
`x[t] = x[t-1] + h·f(x[t-1])` holds for every compartment at every index
`t ≥ 1`, the iteration producing index 1 from index 0.  The SIR loop does
start at 0, but the DisMod loop `for t in 1..n-1` starts at 1, so index 1
is never written: on the spec §8 DisMod scenario `run_euler` completes
leaving `c[1] = 0`, while the recurrence demands
`c[1] = c[0] + h·dcdt(s[0], c[0]) = 0.019 ≠ 0`. -/
theorem claim_C1_dismod_euler_skips_index_one :
    dmDemo.init_popf = some dmDemoInit ∧
    dmDemoInit.run_euler = some dmDemoInit ∧
    dmDemoInit.c.getD 1 0 = 0 ∧
    dmDemoInit.c.getD 0 0
      + dmDemoInit.step_size
        * dmDemoInit.dcdt (dmDemoInit.s.getD 0 0) (dmDemoInit.c.getD 0 0)
      = 19/1000 ∧
    (0 : ℚ) ≠ 19/1000 := by
  refine ⟨dmDemo_init_eval, dmDemo_euler_eval, ?_, ?_, by norm_num⟩ <;>
    norm_num [dmDemoInit, Dismod.Model.dcdt]

set_option maxHeartbeats 4000000 in
/-- C2: the claim states that for every positive length and every
step size in (0, 1] the runs never touch an index at or past the number
of allocated rows.  With `length = 1`, `step_size = 0.3` the allocation
truncates `length/step_size` to 3 rows while the run loops take
`ceil(length/step_size) - 1 = 3` steps, so the final step writes index 3
of a 3-row buffer: both runs of both models hit the out-of-bounds write
(`none` here, an index panic in Rust). -/
theorem claim_C2_runs_write_out_of_bounds :
    sirFrac.init_popf = some sirFracInit ∧
    sirFracInit.s_popf.length = 3 ∧
    fCeil ((sirFrac.length : ℚ) / sirFrac.step_size) = 4 ∧
    sirFracInit.run_euler = none ∧
    sirFracInit.run_rk4 = none ∧
    dmFrac.init_popf = some dmFracInit ∧
    dmFracInit.s.length = 3 ∧
    dmFracInit.run_euler = none ∧
    dmFracInit.run_rk4 = none := by
  have ht : fTrunc ((10 : ℚ) / 3) = 3 := fTrunc_eq _ 3 (by norm_num) (by norm_num)
  have hc : fCeil ((10 : ℚ) / 3) = 4 := fCeil_eq _ 4 (by norm_num) (by norm_num)
  refine ⟨?_, by norm_num [sirFracInit, sirFrac], ?_, ?_, ?_, ?_,
    by norm_num [dmFracInit, dmFrac, Dismod.Model.new, Dismod.Model.configure, ht], ?_, ?_⟩
  · norm_num [sirFrac, sirFracInit, SIR.Model.init_popf, matWrite, ht, List.replicate]
  · norm_num [sirFrac, hc]
  · norm_num [sirFracInit, sirFrac, SIR.Model.run_euler, SIR.Model.eulerStep,
      SIR.Model.dsdt, SIR.Model.didt, SIR.Model.drdt, matWrite, matRead, hc, forLoopM]
  · norm_num [sirFracInit, sirFrac, SIR.Model.run_rk4, SIR.Model.rk4Update,
      SIR.Model.rk4_step, SIR.Model.next_y, SIR.Model.dsdt, SIR.Model.didt,
      SIR.Model.drdt, matWrite, matRead, hc, forLoopM]
  · norm_num [dmFrac, dmFracInit, Dismod.Model.new, Dismod.Model.configure,
      Dismod.Model.init_popf, matWrite, ht, List.replicate]
  · norm_num [dmFracInit, dmFrac, Dismod.Model.new, Dismod.Model.configure,
      Dismod.Model.run_euler, Dismod.Model.eulerStep, Dismod.Model.dsdt,
      Dismod.Model.dcdt, matWrite, matRead, ht, hc, forLoopM]
  · norm_num [dmFracInit, dmFrac, Dismod.Model.new, Dismod.Model.configure,
      Dismod.Model.run_rk4, Dismod.Model.rk4Update, Dismod.Model.rk4_step,
      Dismod.Model.next_y, Dismod.Model.dsdt, Dismod.Model.dcdt, matWrite,
      matRead, ht, hc, forLoopM]

/-- C4, the claim as stated: after `run_euler` on the spec §8 DisMod
scenario, `C_1 = 0.01 + (0.01·0.99 − (0.02+0.03+0.04)·0.01) = 0.0109`.
This is doubly false: the spec arithmetic is off
(`0.01 + (0.0099 − 0.0009) = 0.019`, not `0.0109`), and the code leaves
`C_1 = 0` because the Euler loop starts at `t = 1`. -/
theorem claim_C4_counterexample :
    dmDemo.init_popf = some dmDemoInit ∧
    dmDemoInit.run_euler = some dmDemoInit ∧
    dmDemoInit.c.getD 1 0 ≠ 109/10000 ∧
    (1/100 : ℚ) + ((1/100) * (99/100) - (2/100 + 3/100 + 4/100) * (1/100))
      ≠ 109/10000 := by
  refine ⟨dmDemo_init_eval, dmDemo_euler_eval, ?_, by norm_num⟩
  norm_num [dmDemoInit]

/-- C4, amended: after `init_popf`, `S_0 = 0.99` and `C_0 = 0.01` as
claimed; the Euler value for index 1 computed from index 0 is
`0.01 + (0.01·0.99 − (0.02+0.03+0.04)·0.01) = 0.019`; but `run_euler`
never writes index 1 (its loop starts at `t = 1`), so the stored
with-condition fraction at index 1 is `C_1 = 0`. -/
theorem claim_C4_amended :
    dmDemo.init_popf = some dmDemoInit ∧
    dmDemoInit.s.getD 0 0 = 99/100 ∧
    dmDemoInit.c.getD 0 0 = 1/100 ∧
    (1/100 : ℚ) + ((1/100) * (99/100) - (2/100 + 3/100 + 4/100) * (1/100))
      = 19/1000 ∧
    dmDemoInit.run_euler = some dmDemoInit ∧
    dmDemoInit.c.getD 1 0 = 0 := by
  refine ⟨dmDemo_init_eval, ?_, ?_, by norm_num, dmDemo_euler_eval, ?_⟩ <;>
    norm_num [dmDemoInit]

/-- C5: the claim states that after initialization every compartment
buffer has exactly `ceil(length/step_size)` entries.  The code computes
the row count with `to_usize()` (truncation), not `ceil()`: with
`length = 1`, `step_size = 0.3` the buffers get 3 rows while
`ceil(length/step_size) = 4`; the two agree only when `length/step_size`
is an integer (in particular for unit steps). -/
theorem claim_C5_allocation_truncates :
    sirFrac.init_popf = some sirFracInit ∧
    sirFracInit.s_popf.length = 3 ∧
    sirFracInit.i_popf.length = 3 ∧
    sirFracInit.r_popf.length = 3 ∧
    dmFrac.s.length = 3 ∧
    dmFrac.c.length = 3 ∧
    fCeil ((sirFrac.length : ℚ) / sirFrac.step_size) = 4 ∧
    (3 : Nat) ≠ 4 := by
  have ht : fTrunc ((10 : ℚ) / 3) = 3 := fTrunc_eq _ 3 (by norm_num) (by norm_num)
  have hc : fCeil ((10 : ℚ) / 3) = 4 := fCeil_eq _ 4 (by norm_num) (by norm_num)
  refine ⟨?_, ?_, ?_, ?_, ?_, ?_, ?_, by norm_num⟩
  · norm_num [sirFrac, sirFracInit, SIR.Model.init_popf, matWrite, ht, List.replicate]
  · norm_num [sirFracInit, sirFrac]
  · norm_num [sirFracInit, sirFrac]
  · norm_num [sirFracInit, sirFrac]
  · norm_num [dmFrac, Dismod.Model.new, Dismod.Model.configure, ht]
  · norm_num [dmFrac, Dismod.Model.new, Dismod.Model.configure, ht]
  · norm_num [sirFrac, hc]

/-- An `Option` that is `some` equals `some` of its `getD`. -/
theorem some_getD {α : Type} {x : Option α} {d : α} (h : x.isSome = true) :
    x = some (x.getD d) := by
  cases x
  · simp at h
  · rfl

/-- C6: the derivative functions compute exactly the formulas stated in
spec §4.1, for the SIR model (`dsdt`, `didt`, `drdt`) and the DisMod
model (`dsdt`, `dcdt`, and the spec-modelled `drcdt`, `drodt`). -/
theorem claim_C6_derivative_formulas :
    (∀ (m : SIR.Model) (s i : ℚ),
      m.dsdt s i = -m.incidence_rate * s * i + m.recovery_rate * i) ∧
    (∀ (m : SIR.Model) (s i : ℚ),
      m.didt s i = m.incidence_rate * s * i
        - (m.recovery_rate + m.removal_rate) * i) ∧
    (∀ (m : SIR.Model) (i : ℚ), m.drdt i = m.removal_rate * i) ∧
    (∀ (m : Dismod.Model) (s c : ℚ),
      m.dsdt s c = -(m.iota + m.omega) * s + m.rho * c) ∧
    (∀ (m : Dismod.Model) (s c : ℚ),
      m.dcdt s c = m.iota * s - (m.rho + m.chi + m.omega) * c) ∧
    (∀ (m : Dismod.Model) (c : ℚ), m.drcdt c = m.chi * c) ∧
    (∀ (m : Dismod.Model) (s c : ℚ), m.drodt s c = m.omega * (s + c)) := by
  refine ⟨?_, ?_, ?_, ?_, ?_, ?_, ?_⟩ <;>
    (intros
     simp only [SIR.Model.dsdt, SIR.Model.didt, SIR.Model.drdt,
       Dismod.Model.dsdt, Dismod.Model.dcdt, Dismod.Model.drcdt,
       Dismod.Model.drodt]
     try ring)

/-- C8: after a successful `init_popf`, the susceptible fraction at
index 0 plus the other compartments' index-0 fractions equals exactly 1,
for both models, whenever the configured initial fractions lie in [0, 1]
and sum to at most 1 (the hypotheses the claim quantifies over; the
equality in fact needs none of them, since `S_0` is defined as one minus
the others). -/
theorem claim_C8_partition :
    (∀ (ms m1 : SIR.Model),
      0 ≤ ms.i_popf_init → ms.i_popf_init ≤ 1 →
      0 ≤ ms.r_popf_init → ms.r_popf_init ≤ 1 →
      ms.i_popf_init + ms.r_popf_init ≤ 1 →
      ms.init_popf = some m1 →
      m1.s_popf.getD 0 0 + (m1.i_popf.getD 0 0 + m1.r_popf.getD 0 0) = 1) ∧
    (∀ (md m1 : Dismod.Model), 0 ≤ md.c_init → md.c_init ≤ 1 →
      md.init_popf = some m1 →
      m1.s.getD 0 0 + m1.c.getD 0 0 = 1) := by
  constructor
  · intro ms m1 _ _ _ _ _ h
    obtain ⟨hpos, hm1⟩ := sirInit_popf_inv h
    subst hm1
    show ((List.replicate _ 0).set 0 _).getD 0 0
        + (((List.replicate _ 0).set 0 _).getD 0 0
          + ((List.replicate _ 0).set 0 _).getD 0 0) = 1
    rw [getD_set_same _ _ _ _ (by simpa using hpos),
      getD_set_same _ _ _ _ (by simpa using hpos),
      getD_set_same _ _ _ _ (by simpa using hpos)]
    ring
  · intro md m1 _ _ h
    obtain ⟨hs, hc, hm1⟩ := dmInit_popf_inv h
    subst hm1
    show (md.s.set 0 _).getD 0 0 + (md.c.set 0 _).getD 0 0 = 1
    rw [getD_set_same _ _ _ _ hs, getD_set_same _ _ _ _ hc]
    ring

/-- Witness for C8 at the concrete models `sirP` and `dmP`. -/
theorem claim_C8_partition_witness :
    (0 ≤ sirP.i_popf_init ∧ sirP.i_popf_init ≤ 1 ∧
     0 ≤ sirP.r_popf_init ∧ sirP.r_popf_init ≤ 1 ∧
     sirP.i_popf_init + sirP.r_popf_init ≤ 1 ∧
     sirP.init_popf = some sirPInit ∧
     sirPInit.s_popf.getD 0 0
       + (sirPInit.i_popf.getD 0 0 + sirPInit.r_popf.getD 0 0) = 1) ∧
    (0 ≤ dmP.c_init ∧ dmP.c_init ≤ 1 ∧
     dmP.init_popf = some dmPInit ∧
     dmPInit.s.getD 0 0 + dmPInit.c.getD 0 0 = 1) := by
  have e1 : sirP.init_popf = some sirPInit := some_getD (by
    norm_num [sirP, SIR.Model.init_popf, matWrite, fTrunc, List.replicate])
  have e2 : dmP.init_popf = some dmPInit := some_getD (by
    norm_num [dmP, Dismod.Model.new, Dismod.Model.configure,
      Dismod.Model.init_popf, matWrite, fTrunc, List.replicate])
  refine ⟨⟨by norm_num [sirP], by norm_num [sirP], by norm_num [sirP],
    by norm_num [sirP], by norm_num [sirP], e1, ?_⟩,
    by norm_num [dmP, Dismod.Model.new, Dismod.Model.configure],
    by norm_num [dmP, Dismod.Model.new, Dismod.Model.configure], e2, ?_⟩
  · exact claim_C8_partition.1 sirP sirPInit (by norm_num [sirP])
      (by norm_num [sirP]) (by norm_num [sirP]) (by norm_num [sirP])
      (by norm_num [sirP]) e1
  · exact claim_C8_partition.2 dmP dmPInit
      (by norm_num [dmP, Dismod.Model.new, Dismod.Model.configure])
      (by norm_num [dmP, Dismod.Model.new, Dismod.Model.configure]) e2

/-- C10: DisMod `init_popf` writes row 0 without allocating.  On a fresh
`Model::new` (empty buffers), and after a `configure` whose computed row
count is zero, the row-0 write is out of bounds (`none`, an index panic
in Rust); when both buffers have at least one row, `init_popf`
succeeds with every access in bounds. -/
theorem claim_C10_init_popf_needs_allocated_rows :
    Dismod.Model.new.init_popf = none ∧
    (∀ (md : Dismod.Model) (L : Nat) (hq c it rh ch om : ℚ),
      fTrunc ((L : ℚ) / hq) = 0 →
      (md.configure L hq c it rh ch om).init_popf = none) ∧
    (∀ md : Dismod.Model, 1 ≤ md.s.length → 1 ≤ md.c.length →
      (md.init_popf).isSome = true) := by
  refine ⟨?_, ?_, ?_⟩
  · norm_num [Dismod.Model.new, Dismod.Model.init_popf, matWrite]
  · intro md L hq c it rh ch om hL
    norm_num [Dismod.Model.configure, Dismod.Model.init_popf, matWrite, hL,
      List.replicate]
  · intro md hs hc
    rw [dmInit_popf_eq md (by omega) (by omega)]
    rfl

/-- Witness for C10: the zero-step `configure` branch at `L = 0`,
`h = 1`, and the success branch at the allocated model `dmP`. -/
theorem claim_C10_witness :
    fTrunc ((0 : Nat) / (1 : ℚ)) = 0 ∧
    ((Dismod.Model.new.configure 0 1 0 0 0 0 0).init_popf) = none ∧
    1 ≤ dmP.s.length ∧ 1 ≤ dmP.c.length ∧ (dmP.init_popf).isSome = true := by
  have h0 : fTrunc ((0 : Nat) / (1 : ℚ)) = 0 := by norm_num [fTrunc]
  refine ⟨h0, claim_C10_init_popf_needs_allocated_rows.2.1 _ 0 1 0 0 0 0 0 h0,
    ?_, ?_, claim_C10_init_popf_needs_allocated_rows.2.2 dmP ?_ ?_⟩ <;>
    norm_num [dmP, Dismod.Model.new, Dismod.Model.configure, fTrunc,
      List.replicate]

/-- Reinitializing an SIR model whose non-buffer fields agree with a
previously initialized one reproduces the previously initialized state:
SIR `init_popf` reallocates the buffers and depends on nothing else. -/
theorem SIR.reinit_of_params {ms m1 m2 : SIR.Model}
    (hinit : ms.init_popf = some m1) (hparams : SIR.params m2 = SIR.params ms) :
    m2.init_popf = some m1 := by
  obtain ⟨hpos, hm1⟩ := sirInit_popf_inv hinit
  simp only [SIR.params, Prod.mk.injEq] at hparams
  obtain ⟨hL, hss, hii, hrr, h1, h2, h3⟩ := hparams
  have hpos2 : 0 < fTrunc ((m2.length : ℚ) / m2.step_size) := by
    rw [hL, hss]
    exact hpos
  rw [sirInit_popf_eq m2 hpos2, hm1]
  simp only [Option.some.injEq, SIR.Model.mk.injEq]
  refine ⟨hL, hss, hii, hrr, h1, h2, h3, ?_, ?_, ?_⟩ <;> simp only [hL, hss, hii, hrr]

/-- C7, counterexample to the claim as stated: for DisMod, `init_popf`
only rewrites index 0, so after a completed `run_rk4` a second
`init_popf` does not restore the fresh state — the index-1 entry keeps
its post-run (nonzero) value instead of 0. -/
theorem claim_C7_counterexample :
    dmP.init_popf = some dmPInit ∧
    dmPInit.run_rk4 = some dmPR ∧
    dmPR.init_popf = some dmPReinit ∧
    dmPReinit.s.getD 1 0 ≠ 0 := by
  have e1 : dmP.init_popf = some dmPInit := some_getD (by
    norm_num [dmP, Dismod.Model.new, Dismod.Model.configure,
      Dismod.Model.init_popf, matWrite, fTrunc, List.replicate])
  have e2 : dmPInit.run_rk4 = some dmPR := some_getD (by
    norm_num [dmPInit, dmP, Dismod.Model.new, Dismod.Model.configure,
      Dismod.Model.init_popf, Dismod.Model.run_rk4, Dismod.Model.rk4Update,
      Dismod.Model.rk4_step, Dismod.Model.next_y, Dismod.Model.dsdt,
      Dismod.Model.dcdt, matWrite, matRead, fTrunc, fCeil, List.replicate,
      forLoopM])
  have e3 : dmPR.init_popf = some dmPReinit := some_getD (by
    norm_num [dmPReinit, dmPR, dmPInit, dmP, Dismod.Model.new,
      Dismod.Model.configure, Dismod.Model.init_popf, Dismod.Model.run_rk4,
      Dismod.Model.rk4Update, Dismod.Model.rk4_step, Dismod.Model.next_y,
      Dismod.Model.dsdt, Dismod.Model.dcdt, matWrite, matRead, fTrunc, fCeil,
      List.replicate, forLoopM])
  refine ⟨e1, e2, e3, ?_⟩
  norm_num [dmPReinit, dmPR, dmPInit, dmP, Dismod.Model.new,
    Dismod.Model.configure, Dismod.Model.init_popf, Dismod.Model.run_rk4,
    Dismod.Model.rk4Update, Dismod.Model.rk4_step, Dismod.Model.next_y,
    Dismod.Model.dsdt, Dismod.Model.dcdt, matWrite, matRead, fTrunc, fCeil,
    List.replicate, forLoopM]

/-- C7, amended: for SIR, `init_popf` reallocates every buffer, so
`init_popf; run; init_popf` restores exactly the state of the first
`init_popf`, for either run method.  For DisMod, `init_popf` alone only
rewrites index 0 (see the counterexample); idempotence holds when
`configure` is rerun with the same arguments before `init_popf`, since
`configure` overwrites every field. -/
theorem claim_C7_amended :
    (∀ ms m1 m2 : SIR.Model,
      ms.init_popf = some m1 → m1.run_euler = some m2 →
      m2.init_popf = some m1) ∧
    (∀ ms m1 m2 : SIR.Model,
      ms.init_popf = some m1 → m1.run_rk4 = some m2 →
      m2.init_popf = some m1) ∧
    (∀ (md : Dismod.Model) (L : Nat) (hq c it rh ch om : ℚ)
      (m1 m2 : Dismod.Model),
      (md.configure L hq c it rh ch om).init_popf = some m1 →
      m1.run_euler = some m2 →
      (m2.configure L hq c it rh ch om).init_popf = some m1) ∧
    (∀ (md : Dismod.Model) (L : Nat) (hq c it rh ch om : ℚ)
      (m1 m2 : Dismod.Model),
      (md.configure L hq c it rh ch om).init_popf = some m1 →
      m1.run_rk4 = some m2 →
      (m2.configure L hq c it rh ch om).init_popf = some m1) := by
  refine ⟨?_, ?_, ?_, ?_⟩
  · intro ms m1 m2 hinit hrun
    have hp1 : SIR.params m1 = SIR.params ms := by
      obtain ⟨_, hm1⟩ := sirInit_popf_inv hinit
      rw [hm1]
      rfl
    have hp2 := (sirRun_euler_frame hrun).1
    exact SIR.reinit_of_params hinit (hp2.trans hp1)
  · intro ms m1 m2 hinit hrun
    have hp1 : SIR.params m1 = SIR.params ms := by
      obtain ⟨_, hm1⟩ := sirInit_popf_inv hinit
      rw [hm1]
      rfl
    have hp2 := (sirRun_rk4_spec hrun).1
    exact SIR.reinit_of_params hinit (hp2.trans hp1)
  · intro md L hq c it rh ch om m1 m2 hinit _
    have he : m2.configure L hq c it rh ch om
        = md.configure L hq c it rh ch om := rfl
    rw [he]
    exact hinit
  · intro md L hq c it rh ch om m1 m2 hinit _
    have he : m2.configure L hq c it rh ch om
        = md.configure L hq c it rh ch om := rfl
    rw [he]
    exact hinit

/-- Witness for the amended C7 at the concrete models `sirP` and
`dmP`. -/
theorem claim_C7_amended_witness :
    sirP.init_popf = some sirPInit ∧
    sirPInit.run_euler = some sirPE ∧ sirPE.init_popf = some sirPInit ∧
    sirPInit.run_rk4 = some sirPR ∧ sirPR.init_popf = some sirPInit ∧
    (Dismod.Model.new.configure 2 1 (1/100) (1/100) (2/100) (3/100)
      (4/100)).init_popf = some dmPInit ∧
    dmPInit.run_euler = some dmPE ∧
    (dmPE.configure 2 1 (1/100) (1/100) (2/100) (3/100) (4/100)).init_popf
      = some dmPInit ∧
    dmPInit.run_rk4 = some dmPR ∧
    (dmPR.configure 2 1 (1/100) (1/100) (2/100) (3/100) (4/100)).init_popf
      = some dmPInit := by
  have e1 : sirP.init_popf = some sirPInit := some_getD (by
    norm_num [sirP, SIR.Model.init_popf, matWrite, fTrunc, List.replicate])
  have e2 : sirPInit.run_euler = some sirPE := some_getD (by
    norm_num [sirPE, sirPInit, sirP, SIR.Model.init_popf,
      SIR.Model.run_euler, SIR.Model.eulerStep, SIR.Model.dsdt,
      SIR.Model.didt, SIR.Model.drdt, matWrite, matRead, fTrunc, fCeil,
      List.replicate, forLoopM])
  have e3 : sirPInit.run_rk4 = some sirPR := some_getD (by
    norm_num [sirPR, sirPInit, sirP, SIR.Model.init_popf,
      SIR.Model.run_rk4, SIR.Model.rk4Update, SIR.Model.rk4_step,
      SIR.Model.next_y, SIR.Model.dsdt, SIR.Model.didt, SIR.Model.drdt,
      matWrite, matRead, fTrunc, fCeil, List.replicate, forLoopM])
  have e4 : dmP.init_popf = some dmPInit := some_getD (by
    norm_num [dmP, Dismod.Model.new, Dismod.Model.configure,
      Dismod.Model.init_popf, matWrite, fTrunc, List.replicate])
  have e5 : dmPInit.run_euler = some dmPE := some_getD (by
    norm_num [dmPE, dmPInit, dmP, Dismod.Model.new, Dismod.Model.configure,
      Dismod.Model.init_popf, Dismod.Model.run_euler, Dismod.Model.eulerStep,
      Dismod.Model.dsdt, Dismod.Model.dcdt, matWrite, matRead, fTrunc, fCeil,
      List.replicate, forLoopM])
  have e6 : dmPInit.run_rk4 = some dmPR := some_getD (by
    norm_num [dmPR, dmPInit, dmP, Dismod.Model.new, Dismod.Model.configure,
      Dismod.Model.init_popf, Dismod.Model.run_rk4, Dismod.Model.rk4Update,
      Dismod.Model.rk4_step, Dismod.Model.next_y, Dismod.Model.dsdt,
      Dismod.Model.dcdt, matWrite, matRead, fTrunc, fCeil, List.replicate,
      forLoopM])
  exact ⟨e1, e2, claim_C7_amended.1 sirP sirPInit sirPE e1 e2,
    e3, claim_C7_amended.2.1 sirP sirPInit sirPR e1 e3,
    e4, e5, claim_C7_amended.2.2.1 Dismod.Model.new 2 1 (1/100) (1/100)
      (2/100) (3/100) (4/100) dmPInit dmPE e4 e5,
    e6, claim_C7_amended.2.2.2 Dismod.Model.new 2 1 (1/100) (1/100)
      (2/100) (3/100) (4/100) dmPInit dmPR e4 e6⟩

/-- C3: after a completed `run_rk4`, for both models, every computed
index satisfies the classical staged RK4 recurrence of spec §4.3 —
`x[t+1] = x[t] + (h/6)(k1+2k2+2k3+k4)` with `k1 = f(x_t)`,
`k2 = f(x_t + k1·h/2)`, `k3 = f(x_t + k2·h/2)`, `k4 = f(x_t + k3·h)`,
all compartments advanced together to each intermediate state
(`SIR.specRK4Next`, `Dismod.specRK4Next`). -/
theorem claim_C3_rk4_recurrence (ms ms2 : SIR.Model) (md md2 : Dismod.Model)
    (hs : ms.run_rk4 = some ms2) (hd : md.run_rk4 = some md2) :
    (∀ t, t + 1 < fCeil ((ms.length : ℚ) / ms.step_size) →
      (⟨ms2.s_popf.getD (t + 1) 0, ms2.i_popf.getD (t + 1) 0,
        ms2.r_popf.getD (t + 1) 0⟩ : SIR.SystemVars)
        = SIR.specRK4Next ms2
            ⟨ms2.s_popf.getD t 0, ms2.i_popf.getD t 0, ms2.r_popf.getD t 0⟩) ∧
    (∀ t, t + 1 < fCeil ((md.length : ℚ) / md.step_size) →
      (⟨md2.s.getD (t + 1) 0, md2.c.getD (t + 1) 0⟩ : Dismod.SystemVars)
        = Dismod.specRK4Next md2 ⟨md2.s.getD t 0, md2.c.getD t 0⟩) := by
  obtain ⟨_, _, _, _, _, _, _, hrec⟩ := sirRun_rk4_spec hs
  obtain ⟨_, _, _, _, _, hrecd⟩ := dmRun_rk4_spec hd
  exact ⟨fun t ht => hrec t (by omega), fun t ht => hrecd t (by omega)⟩

/-- Witness for C3 at the concrete models `sirPInit` and `dmPInit`,
instantiated at the first time step. -/
theorem claim_C3_rk4_recurrence_witness :
    sirPInit.run_rk4 = some sirPR ∧
    dmPInit.run_rk4 = some dmPR ∧
    0 + 1 < fCeil ((sirPInit.length : ℚ) / sirPInit.step_size) ∧
    0 + 1 < fCeil ((dmPInit.length : ℚ) / dmPInit.step_size) ∧
    (⟨sirPR.s_popf.getD (0 + 1) 0, sirPR.i_popf.getD (0 + 1) 0,
      sirPR.r_popf.getD (0 + 1) 0⟩ : SIR.SystemVars)
      = SIR.specRK4Next sirPR
          ⟨sirPR.s_popf.getD 0 0, sirPR.i_popf.getD 0 0,
           sirPR.r_popf.getD 0 0⟩ ∧
    (⟨dmPR.s.getD (0 + 1) 0, dmPR.c.getD (0 + 1) 0⟩ : Dismod.SystemVars)
      = Dismod.specRK4Next dmPR ⟨dmPR.s.getD 0 0, dmPR.c.getD 0 0⟩ := by
  have e3 : sirPInit.run_rk4 = some sirPR := some_getD (by
    norm_num [sirPR, sirPInit, sirP, SIR.Model.init_popf,
      SIR.Model.run_rk4, SIR.Model.rk4Update, SIR.Model.rk4_step,
      SIR.Model.next_y, SIR.Model.dsdt, SIR.Model.didt, SIR.Model.drdt,
      matWrite, matRead, fTrunc, fCeil, List.replicate, forLoopM])
  have e6 : dmPInit.run_rk4 = some dmPR := some_getD (by
    norm_num [dmPR, dmPInit, dmP, Dismod.Model.new, Dismod.Model.configure,
      Dismod.Model.init_popf, Dismod.Model.run_rk4, Dismod.Model.rk4Update,
      Dismod.Model.rk4_step, Dismod.Model.next_y, Dismod.Model.dsdt,
      Dismod.Model.dcdt, matWrite, matRead, fTrunc, fCeil, List.replicate,
      forLoopM])
  have hb1 : 0 + 1 < fCeil ((sirPInit.length : ℚ) / sirPInit.step_size) := by
    norm_num [sirPInit, sirP, SIR.Model.init_popf, matWrite, fTrunc, fCeil,
      List.replicate]
  have hb2 : 0 + 1 < fCeil ((dmPInit.length : ℚ) / dmPInit.step_size) := by
    norm_num [dmPInit, dmP, Dismod.Model.new, Dismod.Model.configure,
      Dismod.Model.init_popf, matWrite, fTrunc, fCeil, List.replicate]
  exact ⟨e3, e6, hb1, hb2,
    (claim_C3_rk4_recurrence sirPInit sirPR dmPInit dmPR e3 e6).1 0 hb1,
    (claim_C3_rk4_recurrence sirPInit sirPR dmPInit dmPR e3 e6).2 0 hb2⟩

/-- C9: a completed `run_euler` or `run_rk4` leaves the rate parameters,
`length`, `step_size`, the initial-fraction fields (all bundled in
`params`), the buffer lengths, and the index-0 entry of every compartment
buffer unchanged, for both models. -/
theorem claim_C9_frame (ms mse msr : SIR.Model) (md mde mdr : Dismod.Model)
    (he : ms.run_euler = some mse) (hr : ms.run_rk4 = some msr)
    (hde : md.run_euler = some mde) (hdr : md.run_rk4 = some mdr) :
    (SIR.params mse = SIR.params ms ∧
     mse.s_popf.length = ms.s_popf.length ∧
     mse.i_popf.length = ms.i_popf.length ∧
     mse.r_popf.length = ms.r_popf.length ∧
     mse.s_popf.getD 0 0 = ms.s_popf.getD 0 0 ∧
     mse.i_popf.getD 0 0 = ms.i_popf.getD 0 0 ∧
     mse.r_popf.getD 0 0 = ms.r_popf.getD 0 0) ∧
    (SIR.params msr = SIR.params ms ∧
     msr.s_popf.length = ms.s_popf.length ∧
     msr.i_popf.length = ms.i_popf.length ∧
     msr.r_popf.length = ms.r_popf.length ∧
     msr.s_popf.getD 0 0 = ms.s_popf.getD 0 0 ∧
     msr.i_popf.getD 0 0 = ms.i_popf.getD 0 0 ∧
     msr.r_popf.getD 0 0 = ms.r_popf.getD 0 0) ∧
    (Dismod.params mde = Dismod.params md ∧
     mde.s.length = md.s.length ∧
     mde.c.length = md.c.length ∧
     mde.s.getD 0 0 = md.s.getD 0 0 ∧
     mde.c.getD 0 0 = md.c.getD 0 0) ∧
    (Dismod.params mdr = Dismod.params md ∧
     mdr.s.length = md.s.length ∧
     mdr.c.length = md.c.length ∧
     mdr.s.getD 0 0 = md.s.getD 0 0 ∧
     mdr.c.getD 0 0 = md.c.getD 0 0) := by
  obtain ⟨a1, a2, a3, a4, a5, a6, a7, _⟩ := sirRun_rk4_spec hr
  obtain ⟨b1, b2, b3, b4, b5, _⟩ := dmRun_rk4_spec hdr
  exact ⟨sirRun_euler_frame he, ⟨a1, a2, a3, a4, a5, a6, a7⟩,
    dmRun_euler_frame hde, ⟨b1, b2, b3, b4, b5⟩⟩

/-- Witness for C9 at the concrete models `sirPInit` and `dmPInit`. -/
theorem claim_C9_frame_witness :
    sirPInit.run_euler = some sirPE ∧
    sirPInit.run_rk4 = some sirPR ∧
    dmPInit.run_euler = some dmPE ∧
    dmPInit.run_rk4 = some dmPR ∧
    SIR.params sirPE = SIR.params sirPInit ∧
    sirPE.s_popf.getD 0 0 = sirPInit.s_popf.getD 0 0 ∧
    SIR.params sirPR = SIR.params sirPInit ∧
    sirPR.s_popf.getD 0 0 = sirPInit.s_popf.getD 0 0 ∧
    Dismod.params dmPE = Dismod.params dmPInit ∧
    dmPE.c.getD 0 0 = dmPInit.c.getD 0 0 ∧
    Dismod.params dmPR = Dismod.params dmPInit ∧
    dmPR.c.getD 0 0 = dmPInit.c.getD 0 0 := by
  have e2 : sirPInit.run_euler = some sirPE := some_getD (by
    norm_num [sirPE, sirPInit, sirP, SIR.Model.init_popf,
      SIR.Model.run_euler, SIR.Model.eulerStep, SIR.Model.dsdt,
      SIR.Model.didt, SIR.Model.drdt, matWrite, matRead, fTrunc, fCeil,
      List.replicate, forLoopM])
  have e3 : sirPInit.run_rk4 = some sirPR := some_getD (by
    norm_num [sirPR, sirPInit, sirP, SIR.Model.init_popf,
      SIR.Model.run_rk4, SIR.Model.rk4Update, SIR.Model.rk4_step,
      SIR.Model.next_y, SIR.Model.dsdt, SIR.Model.didt, SIR.Model.drdt,
      matWrite, matRead, fTrunc, fCeil, List.replicate, forLoopM])
  have e5 : dmPInit.run_euler = some dmPE := some_getD (by
    norm_num [dmPE, dmPInit, dmP, Dismod.Model.new, Dismod.Model.configure,
      Dismod.Model.init_popf, Dismod.Model.run_euler, Dismod.Model.eulerStep,
      Dismod.Model.dsdt, Dismod.Model.dcdt, matWrite, matRead, fTrunc, fCeil,
      List.replicate, forLoopM])
  have e6 : dmPInit.run_rk4 = some dmPR := some_getD (by
    norm_num [dmPR, dmPInit, dmP, Dismod.Model.new, Dismod.Model.configure,
      Dismod.Model.init_popf, Dismod.Model.run_rk4, Dismod.Model.rk4Update,
      Dismod.Model.rk4_step, Dismod.Model.next_y, Dismod.Model.dsdt,
      Dismod.Model.dcdt, matWrite, matRead, fTrunc, fCeil, List.replicate,
      forLoopM])
  obtain ⟨he, hrk, hde, hdr⟩ :=
    claim_C9_frame sirPInit sirPE sirPR dmPInit dmPE dmPR e2 e3 e5 e6
  exact ⟨e2, e3, e5, e6, he.1, he.2.2.2.2.1, hrk.1, hrk.2.2.2.2.1,
    hde.1, hde.2.2.2.2, hdr.1, hdr.2.2.2.2⟩
